import Mathlib

/-!
# Verification of the go-workflow-template greeting program

Shallow embedding of the repository's executable logic:

* `Hello` embeds the greeting function of the `greet` package
  (`pkg/greet`, provided as `src/unnamed/part_000`).
* `version` embeds the build-time version variable `var version = "dev"`
  of `src/cmd/app/main.go`.
* `runMain` embeds the entry point `main` of `src/cmd/app/main.go`.
  `main` delegates argument parsing to Go's standard `flag` package
  (`flag.Bool("version", false, "show version")` followed by
  `flag.Parse()` on the default `ExitOnError` command-line flag set);
  the parser's behaviour for this one-boolean-flag set is embedded by
  `flagParse` below, following the documented semantics of
  `flag.FlagSet.parseOne` / `flag.FlagSet.Parse` and
  `strconv.ParseBool`.
* `BenchmarkHello` embeds the result sequence of the benchmark loop in
  the test file (`src/unnamed/part_001`).
-/

/-- Embedding of `greet.Hello` (`src/unnamed/part_000`, lines 5-7):
`return "Hello, " + name + "!"`. -/
def Hello (name : String) : String :=
  "Hello, " ++ name ++ "!"

/-- Embedding of `var version = "dev"` (`src/cmd/app/main.go`, line 10):
the default value of the build-time version variable when no value is
injected by the build. -/
def version : String := "dev"

/-- Go's `strconv.ParseBool`, used by the `flag` package to set a boolean
flag from an explicit `-version=value` argument.  It accepts exactly
`1, t, T, TRUE, true, True` (true) and `0, f, F, FALSE, false, False`
(false); anything else is a syntax error (`none`). -/
def parseBool (s : String) : Option Bool :=
  if s = "1" ∨ s = "t" ∨ s = "T" ∨ s = "TRUE" ∨ s = "true" ∨ s = "True" then
    some true
  else if s = "0" ∨ s = "f" ∨ s = "F" ∨ s = "FALSE" ∨ s = "false" ∨ s = "False" then
    some false
  else
    none

/-- Split a flag body at its first `=` (Go `parseOne`: `name[i] == '='`
scanning from index 1; the caller has already ruled out a leading `=`).
Returns the flag name and, when an `=` is present, the value after it. -/
def splitEq : List Char → List Char × Option (List Char)
  | [] => ([], none)
  | c :: rest =>
    if c = '=' then ([], some rest)
    else
      let p := splitEq rest
      (c :: p.1, p.2)

/-- Outcome of examining one command-line argument, following Go
`flag.FlagSet.parseOne` for a flag set defining exactly the boolean flag
`version` (`src/cmd/app/main.go`, line 13):

* `stop`: the argument is not a flag (`len(s) < 2 || s[0] != '-'`);
  parsing terminates and this and all later arguments are positional.
* `term`: the argument is the terminator `--`; parsing terminates.
* `setVersion b`: the `version` flag was set to `b`; parsing continues.
* `help`: the flag name is `help` or `h`, which the program does not
  define; the package's built-in help prints usage and `Parse` exits
  with status 0 (`ErrHelp` under `ExitOnError`).
* `err`: bad flag syntax, an undefined flag name, or an invalid boolean
  value; `Parse` prints a diagnostic plus usage and exits with status 2
  (`ExitOnError`). -/
inductive OneResult where
  | stop
  | term
  | setVersion (b : Bool)
  | help
  | err
  deriving DecidableEq

/-- Handle the body of a flag argument (the characters after the leading
`-` or `--`), following Go `flag.FlagSet.parseOne`: reject a leading `-`
or `=` as bad syntax, split off an `=value` part, look the name up among
the defined flags (only `version`, a boolean flag), fall back to the
built-in `help`/`h`, and otherwise fail with "flag provided but not
defined". -/
def handleName : List Char → OneResult
  | [] => .err
  | c :: rest =>
    if c = '-' ∨ c = '=' then .err
    else
      let p := splitEq (c :: rest)
      let flagName := String.mk p.1
      if flagName = "version" then
        match p.2 with
        | none => .setVersion true
        | some val =>
          match parseBool (String.mk val) with
          | some b => .setVersion b
          | none => .err
      else if flagName = "help" ∨ flagName = "h" then .help
      else .err

/-- Examine a single command-line argument, following the entry checks of
Go `flag.FlagSet.parseOne`: an argument shorter than two characters or
not starting with `-` stops flag parsing; `--` alone terminates it; one
or two leading minus signs introduce a flag body handled by
`handleName`. -/
def parseOneArg (s : String) : OneResult :=
  match s.toList with
  | [] => .stop
  | c :: cs =>
    if c ≠ '-' then .stop
    else
      match cs with
      | [] => .stop
      | c2 :: cs2 =>
        if c2 = '-' then
          match cs2 with
          | [] => .term
          | c3 :: cs3 => handleName (c3 :: cs3)
        else handleName (c2 :: cs2)

/-- Overall outcome of `flag.Parse()` for this program: the final value
of the `version` flag on success, or the help / error exits performed by
the `ExitOnError` flag set. -/
inductive ParseOutcome where
  | ok (showVersion : Bool)
  | help
  | err
  deriving DecidableEq

/-- The loop of Go `flag.FlagSet.Parse`: arguments are consumed one at a
time by `parseOneArg`; a non-flag argument or `--` stops the loop (later
arguments stay positional and are ignored by `main`), and the first help
request or parse error exits immediately. -/
def parseLoop (showVersion : Bool) : List String → ParseOutcome
  | [] => .ok showVersion
  | a :: rest =>
    match parseOneArg a with
    | .stop => .ok showVersion
    | .term => .ok showVersion
    | .setVersion b => parseLoop b rest
    | .help => .help
    | .err => .err

/-- Embedding of `flag.Parse()` as called by `main`: the `version` flag
starts at its default `false` (`flag.Bool("version", false, ...)`) and
the command-line arguments are scanned by `parseLoop`. -/
def flagParse (args : List String) : ParseOutcome :=
  parseLoop false args

/-- Observable result of one run of the program: the lines written to
standard output, whether a diagnostic/usage message was written (the
`flag` package writes it to standard error), whether `greet.Hello` was
invoked, and the process exit status. -/
structure RunResult where
  stdout : List String
  usagePrinted : Bool
  helloCalled : Bool
  exitCode : Nat
  deriving DecidableEq

/-- Embedding of `main` (`src/cmd/app/main.go`, lines 12-22),
parameterised by the build-time value `v` of the `version` variable:
parse the flags; on a parse error the `ExitOnError` flag set prints a
diagnostic and usage and exits 2; on a built-in help request it prints
usage and exits 0; if `*showVersion` is true print the version and
return; otherwise print `greet.Hello("World")` and return.  A normal
return from `main` is exit status 0. -/
def runMain (v : String) (args : List String) : RunResult :=
  match flagParse args with
  | .err => ⟨[], true, false, 2⟩
  | .help => ⟨[], true, false, 0⟩
  | .ok true => ⟨[v], false, false, 0⟩
  | .ok false => ⟨[Hello "World"], false, true, 0⟩

/-- Embedding of the benchmark loop `BenchmarkHello`
(`src/unnamed/part_001`, lines 25-29): the sequence of values returned
by the iterations `Hello("Benchmark")` for `i = 0 .. n-1`, in order. -/
def BenchmarkHello : Nat → List String
  | 0 => []
  | n + 1 => BenchmarkHello n ++ [Hello "Benchmark"]

/-! ## Helper lemmas -/

/-- `splitEq` on a flag body containing no `=` returns the whole body as
the flag name and no value. -/
theorem splitEq_of_not_mem (cs : List Char) (h : '=' ∉ cs) : splitEq cs = (cs, none) := by
  induction cs with
  | nil => rfl
  | cons c rest ih =>
    have hc : c ≠ '=' := fun hcc => h (hcc ▸ List.mem_cons_self c rest)
    have hr : '=' ∉ rest := fun hm => h (List.mem_cons_of_mem c hm)
    simp [splitEq, hc, ih hr]

/-- An argument that does not start with `-` (in particular the empty
argument and any bare word) stops flag parsing. -/
theorem parseOneArg_stop (a : String) (h : a.toList.head? ≠ some '-') :
    parseOneArg a = .stop := by
  have h' : a.data.head? ≠ some '-' := h
  rcases ht : a.data with _ | ⟨c, cs⟩
  · simp [parseOneArg, String.toList, ht]
  · have hc : c ≠ '-' := by
      rw [ht] at h'
      simpa using h'
    simp [parseOneArg, String.toList, ht, hc]

/-- A single-minus flag whose name is well formed (nonempty, not starting
with `-`, containing no `=`) but is none of `version`, `help`, `h` is a
parse error (`flag provided but not defined`). -/
theorem parseOneArg_unknown (name : String) (hne : name ≠ "")
    (hdash : name.toList.head? ≠ some '-')
    (hnoeq : '=' ∉ name.toList)
    (hv : name ≠ "version") (hh : name ≠ "help") (hhh : name ≠ "h") :
    parseOneArg ("-" ++ name) = .err := by
  obtain ⟨cs⟩ := name
  match cs with
  | [] => exact absurd rfl hne
  | c :: cs =>
    have h2 : '=' ∉ c :: cs := hnoeq
    have hc : c ≠ '-' := fun h => hdash (by subst h; rfl)
    have hceq : c ≠ '=' := fun h => h2 (h ▸ List.mem_cons_self c cs)
    have hlist : ("-" ++ String.mk (c :: cs)).data = '-' :: c :: cs := rfl
    have hsplit := splitEq_of_not_mem (c :: cs) h2
    simp [parseOneArg, String.toList, hlist, hc, handleName, hceq, hsplit, hv, hh, hhh]

/-! ## Claim theorems -/

/-- C1: for every string input `n` the greeting function `Hello` returns
exactly the concatenation `"Hello, " + n + "!"`; in particular
`Hello "World" = "Hello, World!"`, `Hello "Go" = "Hello, Go!"` and
`Hello "" = "Hello, !"`. -/
theorem Hello_concat :
    (∀ n : String, Hello n = "Hello, " ++ n ++ "!") ∧
    Hello "World" = "Hello, World!" ∧
    Hello "Go" = "Hello, Go!" ∧
    Hello "" = "Hello, !" :=
  ⟨fun _ => rfl, by decide, by decide, by decide⟩

/-- C2: whenever argument parsing sets the version switch, the run prints
exactly the build-time version value `v` and nothing else to standard
output, does not invoke `Hello` and prints no greeting, and exits with
status 0. -/
theorem main_version_switch (v : String) (args : List String)
    (h : flagParse args = .ok true) :
    runMain v args = ⟨[v], false, false, 0⟩ := by
  simp [runMain, h]

/-- C2 witness: at the concrete invocation `-version` with build version
`dev`. -/
theorem main_version_switch_witness :
    runMain "dev" ["-version"] = ⟨["dev"], false, false, 0⟩ :=
  main_version_switch "dev" ["-version"] (by decide)

/-- C3: invoking the entry point with no command-line arguments calls
`Hello` with the fixed literal `"World"`, prints exactly
`"Hello, World!"`, and exits with status 0, for every build-time version
value. -/
theorem main_no_args (v : String) :
    runMain v [] = ⟨[Hello "World"], false, true, 0⟩ ∧
    Hello "World" = "Hello, World!" :=
  ⟨rfl, by decide⟩

/-- C4 counterexample: `h` is not a flag the program defines (its only
flag is `version`), yet running with `-h` exits with status 0 — the flag
package's built-in help prints usage and exits successfully — refuting
the claim that every unrecognized flag yields a non-zero exit status. -/
theorem unknown_help_flag_exits_zero :
    "h" ≠ "version" ∧
    runMain "dev" ["-h"] = ⟨[], true, false, 0⟩ ∧
    (runMain "dev" ["-h"]).exitCode = 0 := by
  decide

/-- C4 (amended): every well-formed single-minus flag whose name is not
`version` and not one of the parser's built-in help names `help`/`h`
causes exit status 2 with a usage message, as does a malformed boolean
value for `-version`; the help names print usage but exit 0; a non-zero
exit status occurs only on argument-parse failure, and every rejection
prints a diagnostic (nothing is silently accepted). -/
theorem main_rejects_unknown_flags (v name : String) (rest : List String)
    (hne : name ≠ "") (hdash : name.toList.head? ≠ some '-')
    (hnoeq : '=' ∉ name.toList)
    (hv : name ≠ "version") (hh : name ≠ "help") (hhh : name ≠ "h") :
    runMain v (("-" ++ name) :: rest) = ⟨[], true, false, 2⟩ ∧
    (∀ args : List String, (runMain v args).exitCode ≠ 0 →
      flagParse args = .err ∧ (runMain v args).usagePrinted = true) ∧
    runMain v ["-version=banana"] = ⟨[], true, false, 2⟩ ∧
    runMain v ["-h"] = ⟨[], true, false, 0⟩ ∧
    runMain v ["--help"] = ⟨[], true, false, 0⟩ := by
  refine ⟨?_, ?_, rfl, rfl, rfl⟩
  · have he := parseOneArg_unknown name hne hdash hnoeq hv hh hhh
    simp [runMain, flagParse, parseLoop, he]
  · intro args hargs
    match hp : flagParse args with
    | .ok b =>
      exfalso
      apply hargs
      cases b <;> simp [runMain, hp]
    | .help =>
      exfalso
      apply hargs
      simp [runMain, hp]
    | .err => simp [runMain, hp]

/-- C4 witness: the unrecognized flag `-badflag` exits with status 2 and
a usage message. -/
theorem main_rejects_unknown_flags_witness :
    runMain "dev" (("-" ++ "badflag") :: []) = ⟨[], true, false, 2⟩ :=
  (main_rejects_unknown_flags "dev" "badflag" [] (by decide) (by decide)
    (by decide) (by decide) (by decide) (by decide)).1

/-- C5: `Hello` is total — in this embedding it is a plain function into
`String` with no `Option`/`Except` codomain, because the source has no
failure path, no blocking operation and no error branch; accordingly, for
every input it terminates with a result. -/
theorem Hello_total : ∀ n : String, ∃ out : String, Hello n = out :=
  fun n => ⟨Hello n, rfl⟩

/-- C6: `Hello` is deterministic — two calls with equal input strings
return equal outputs (the embedding carries no hidden state). -/
theorem Hello_deterministic (n1 n2 : String) (h : n1 = n2) :
    Hello n1 = Hello n2 :=
  congrArg Hello h

/-- C6 witness: two calls at the concrete input `"Go"`. -/
theorem Hello_deterministic_witness : Hello "Go" = Hello "Go" :=
  Hello_deterministic "Go" "Go" rfl

/-- C7: the benchmark loop calling `Hello "Benchmark"` produces the same
value at every iteration and accumulates no state: for every iteration
count `n` the sequence of results is exactly `n` copies of the single
value `Hello "Benchmark"`. -/
theorem BenchmarkHello_no_accumulation :
    ∀ n : Nat, BenchmarkHello n = List.replicate n (Hello "Benchmark") := by
  intro n
  induction n with
  | zero => rfl
  | succ k ih => simp [BenchmarkHello, ih, List.replicate_succ']

/-- C8: when no version value is injected at build time the version
variable holds exactly `"dev"`, and the version switch then prints
exactly `"dev"`. -/
theorem version_default :
    version = "dev" ∧
    runMain version ["-version"] = ⟨["dev"], false, false, 0⟩ :=
  ⟨rfl, by decide⟩

/-- C9: a leading non-flag argument (any argument not starting with `-`,
e.g. a bare word) stops flag parsing and is silently accepted along with
everything after it: the run still prints `"Hello, World!"` and exits
with status 0. -/
theorem main_accepts_positional (v a : String) (rest : List String)
    (h : a.toList.head? ≠ some '-') :
    runMain v (a :: rest) = ⟨["Hello, World!"], false, true, 0⟩ := by
  have hs := parseOneArg_stop a h
  simp [runMain, flagParse, parseLoop, hs, Hello]

/-- C9 witness: the extra positional argument `extra` is accepted. -/
theorem main_accepts_positional_witness :
    runMain "dev" ("extra" :: []) = ⟨["Hello, World!"], false, true, 0⟩ :=
  main_accepts_positional "dev" "extra" [] (by decide)

/-- C10: for every input `n` the output of `Hello n` has length exactly
`n.length + 8`, starts with `"Hello, "`, ends with `"!"`, and is never
empty. -/
theorem Hello_shape (n : String) :
    (Hello n).length = n.length + 8 ∧
    (∃ rest, Hello n = "Hello, " ++ rest) ∧
    (∃ front, Hello n = front ++ "!") ∧
    Hello n ≠ "" := by
  have hlen : (Hello n).length = n.length + 8 := by
    show ("Hello, " ++ n ++ "!").length = n.length + 8
    rw [String.length_append, String.length_append]
    have h7 : ("Hello, " : String).length = 7 := rfl
    have h1 : ("!" : String).length = 1 := rfl
    rw [h7, h1]
    omega
  refine ⟨hlen, ⟨n ++ "!", ?_⟩, ⟨"Hello, " ++ n, rfl⟩, ?_⟩
  · show "Hello, " ++ n ++ "!" = "Hello, " ++ (n ++ "!")
    rw [String.append_assoc]
  · intro hempty
    rw [hempty] at hlen
    have h0 : ("" : String).length = 0 := rfl
    rw [h0] at hlen
    omega
